import Mathlib

/-!
Shallow embedding of the account-automation bot (`bot.py`) for checking its
natural-language specification.  Python dictionaries become structures or
association lists, timestamps become `Nat`, random draws become explicit seed
parameters (`random.choice` is indexing modulo the list length, `random.randint`
is a seeded value inside the closed interval), and exceptions become explicit
outcome types.  All definitions are translated from `bot.py`; theorems about
them follow at the end of the file.
-/

namespace AmazonBot

/-! ### String helpers

Lean's built-in `String.toLower`/`String.startsWith` do not reduce well inside
the kernel, so the Python string operations used by the code are modelled
directly on the underlying character lists. -/

/-- Python `str.lower()` (the code only compares ASCII words, for which
per-character lowering agrees with Python). -/
def lowerData (s : String) : List Char := s.data.map Char.toLower

/-- Python `pat in text` (substring containment) on character lists. -/
def hasSub (text pat : List Char) : Bool :=
  match text with
  | [] => pat.isEmpty
  | _ :: t => pat.isPrefixOf text || hasSub t pat

/-- Python `s.startswith(p)`, used to classify WebGL renderer strings. -/
def strStarts (s p : String) : Bool := p.data.isPrefixOf s.data

/-- `random.choice(l)` with an explicit seed: indexing modulo the length.
The distribution is irrelevant here; every theorem quantifies over the seed. -/
def pickD (l : List α) (d : α) (i : Nat) : α := l.getD (i % l.length) d

/-- `random.randint(lo, hi)` (both endpoints included) with an explicit seed. -/
def randNat (lo hi seed : Nat) : Nat := lo + seed % (hi + 1 - lo)

/-! ### Selector Learning Store (`SelectorLearner` in `bot.py`)

`learned_selectors` is a JSON object mapping a category name to a list of
entry records; it is modelled as an association list.  The ISO timestamp
strings (`datetime.now().isoformat()`) are abstracted to `Nat`. -/

/-- One record in `learned_selectors.json`, as written by
`SelectorLearner.add_selector` (`selector`, `context`, `learned_at`,
`success_count`, and `last_success` which only appears once the entry has been
re-recorded). -/
structure LearnedEntry where
  selector : String
  context : String
  learned_at : Nat
  success_count : Nat
  last_success : Option Nat
deriving DecidableEq

/-- The in-memory `self.learned_selectors` dict: category name ↦ entry list. -/
abbrev Store := List (String × List LearnedEntry)

/-- Python dict lookup `self.learned_selectors[category]` (as an `Option`). -/
def lookupCat : Store → String → Option (List LearnedEntry)
  | [], _ => none
  | p :: t, c => if p.1 == c then some p.2 else lookupCat t c

/-- `if category not in self.learned_selectors: self.learned_selectors[category] = []`. -/
def ensureCat (s : Store) (c : String) : Store :=
  if (lookupCat s c).isSome then s else s ++ [(c, [])]

/-- Mutation of the list stored under key `c` (all other keys untouched). -/
def mapCat : Store → String → (List LearnedEntry → List LearnedEntry) → Store
  | [], _, _ => []
  | p :: t, c, f => (if p.1 == c then (p.1, f p.2) else p) :: mapCat t c f

/-- The `for entry in self.learned_selectors[category]` loop of `add_selector`:
the first entry whose `selector` matches gets `success_count += 1` and
`last_success = now` (then `break`); `none` is Python's `existing = False`. -/
def bumpFirst (sel : String) (now : Nat) : List LearnedEntry → Option (List LearnedEntry)
  | [] => none
  | e :: es =>
    if e.selector == sel then
      some ({ e with success_count := e.success_count + 1, last_success := some now } :: es)
    else
      (bumpFirst sel now es).map (fun l => e :: l)

/-- The per-category effect of `add_selector`: update the first matching entry,
or append the fresh `selector_entry` (with `success_count = 1`). -/
def addToCategoryList (sel ctx : String) (now : Nat) (l : List LearnedEntry) :
    List LearnedEntry :=
  match bumpFirst sel now l with
  | some l' => l'
  | none =>
      l ++ [{ selector := sel, context := ctx, learned_at := now,
              success_count := 1, last_success := none }]

/-- `SelectorLearner.add_selector(category, selector, context)` at time `now`
(without the final `save_learned_selectors()`, modelled separately below). -/
def add_selector (s : Store) (category sel ctx : String) (now : Nat) : Store :=
  mapCat (ensureCat s category) category (addToCategoryList sel ctx now)

/-- The learner together with the contents of `learned_selectors.json`;
`save_learned_selectors` copies the in-memory store to the file. -/
structure LearnerWorld where
  store : Store
  disk : Store
deriving DecidableEq

/-- `add_selector` as executed by the bot: mutate the in-memory store, then
unconditionally `self.save_learned_selectors()` (synchronous `json.dump`). -/
def addSelectorWorld (w : LearnerWorld) (category sel ctx : String) (now : Nat) :
    LearnerWorld :=
  let s := add_selector w.store category sel ctx now
  { store := s, disk := s }

/-- `SelectorLearner.get_combined_selectors(category, base_selectors)`:
learned selectors for the category first, then the base selectors that are not
already learned. -/
def get_combined_selectors (s : Store) (category : String) (base : List String) :
    List String :=
  let learned := ((lookupCat s category).getD []).map (fun e => e.selector)
  learned ++ base.filter (fun x => !(learned.contains x))

/-- The learned selector strings for a category, in the store's order. -/
def learnedOf (s : Store) (c : String) : List String :=
  ((lookupCat s c).getD []).map (fun e => e.selector)

/-- The entries stored for one `(category, selector)` pair. -/
def entriesFor (s : Store) (c sel : String) : List LearnedEntry :=
  ((lookupCat s c).getD []).filter (fun e => e.selector == sel)

/-- The state of `learned_selectors.json` as seen by
`load_learned_selectors`: absent (`open` raises `FileNotFoundError`), present
but not JSON (`json.load` raises `JSONDecodeError`), or a parsed store. -/
inductive StoreFile where
  | missing
  | malformed
  | valid (s : Store)

/-- The default store built when loading fails: the three empty categories. -/
def defaultStore : Store :=
  [("signin_selectors", []), ("create_account_selectors", []), ("continue_selectors", [])]

/-- `SelectorLearner.load_learned_selectors`: return the parsed file, except
that `FileNotFoundError` and `json.JSONDecodeError` both yield the default
empty store (no error reaches the caller). -/
def load_learned_selectors : StoreFile → Store
  | .missing => defaultStore
  | .malformed => defaultStore
  | .valid s => s

/-! ### Selector Resolver (`find_element_robust` in `bot.py`)

`page.wait_for_selector` either finds the element, raises
`PlaywrightTimeoutError`, or raises some other exception; the page is modelled
as a function from a selector to that outcome. -/

/-- Outcome of one `await page.wait_for_selector(selector, timeout=timeout)`. -/
inductive ProbeOutcome where
  | found
  | timedOut
  | errored
deriving DecidableEq

/-- `find_element_robust(page, selectors, ...)`: try each selector in order,
return the first that is found; both `except PlaywrightTimeoutError` and
`except Exception` just `continue`; `None` when the list is exhausted. -/
def find_element_robust (probe : String → ProbeOutcome) : List String → Option String
  | [] => none
  | s :: rest =>
    match probe s with
    | .found => some s
    | .timedOut => find_element_robust probe rest
    | .errored => find_element_robust probe rest

/-- The selectors `find_element_robust` actually probes, in order (the loop
body runs once per selector until the first `found` ends the function). -/
def probedSelectors (probe : String → ProbeOutcome) : List String → List String
  | [] => []
  | s :: rest =>
    match probe s with
    | .found => [s]
    | .timedOut => s :: probedSelectors probe rest
    | .errored => s :: probedSelectors probe rest

/-! ### Interaction categorizer (`categorize_interaction` in `bot.py`)

An interaction is modelled by its `text` field and its `attributes['type']`
(`attrs.get('type')`, absent ↦ `none`). -/

/-- `categorize_interaction(context, interaction)`. -/
def categorize_interaction (context : String) (text : String) (attrType : Option String) :
    String :=
  let t := lowerData text
  if context == "signin" then "signin_selectors"
  else if (["continue", "verify", "create", "submit"].any fun w => hasSub t w.data) then
    "create_account_selectors"
  else if (["continue", "next", "proceed"].any fun w => hasSub t w.data) then
    "continue_selectors"
  else if attrType == some "submit" || attrType == some "button" then
    "create_account_selectors"
  else "signin_selectors"

/-! ### Flow orchestrator slice (`got_email` and its detection branches)

Only the FSM data keys that the duplicate-email and puzzle branches read or
write are modelled.  A Python key holding `None` and an absent key are both
`none` (the only observable difference in the source is which chat message is
selected, not any credential or stage decision). -/

/-- The aiogram FSM states of `RegFlow`. -/
inductive RegStage where
  | waiting_for_email
  | waiting_for_captcha
  | waiting_for_otp
  | learning_mode
deriving DecidableEq

/-- The FSM `state.get_data()` keys used by `got_email` and the
duplicate-email / puzzle branches (`state.update_data` defaults:
absent string keys ↦ `none`, `retry_with_proxy` ↦ `False`,
`puzzle_retry_count` ↦ `0`). -/
structure FlowData where
  email : Option String := none
  full_name : Option String := none
  password : Option String := none
  previous_email : Option String := none
  restart_reason : Option String := none
  original_full_name : Option String := none
  original_password : Option String := none
  retry_with_proxy : Bool := false
  puzzle_retry_count : Nat := 0
deriving DecidableEq

/-- The state update performed by `got_email` on a valid email (its happy
path): when `retry_with_proxy` is set, reuse the stored `full_name`/`password`
(falling back to fresh draws when either is missing or empty — Python's
`if not full_name or not password`); otherwise generate fresh ones.
`freshName`/`freshPassword` stand for the `random.choice`/`secrets`
draws.  When the restart marker keys are present, they are cleared. -/
def gotEmailStep (d : FlowData) (email freshName freshPassword : String) : FlowData :=
  let reuse : Bool :=
    d.retry_with_proxy &&
      (match d.full_name, d.password with
       | some n, some p => !(n == "") && !(p == "")
       | _, _ => false)
  let fullName := if reuse then d.full_name.getD freshName else freshName
  let password := if reuse then d.password.getD freshPassword else freshPassword
  let d1 := { d with email := some email, full_name := some fullName,
                     password := some password }
  if d.retry_with_proxy then d1
  else if d.previous_email.isSome || d.restart_reason.isSome then
    { d1 with previous_email := none, restart_reason := none }
  else d1

/-- The duplicate-email branch after form submission: store the rejected email
and the generated credentials under `previous_email`/`restart_reason`/
`original_full_name`/`original_password`, clean the session up, and set the
FSM back to `RegFlow.waiting_for_email`.  (`retry_with_proxy` is not touched
here; only the puzzle branch sets it.) -/
def onDuplicateEmail (d : FlowData) : FlowData × RegStage :=
  ({ d with previous_email := d.email,
            restart_reason := some "duplicate_email",
            original_full_name := d.full_name,
            original_password := d.password },
   RegStage.waiting_for_email)

/-- What the puzzle branch decides to do on one detection. -/
inductive PuzzleAction where
  /-- `retry_count >= 2`: the terminal "Puzzle Persiste Após Múltiplas
  Tentativas" message; session cleaned up, state cleared, no retry. -/
  | giveUp
  /-- First rotation attempted but `get_working_free_proxy()` found nothing:
  terminal "Erro ao Obter Proxy Gratuito" message. -/
  | proxyFetchFailed
  /-- Rotate (new proxy and, on re-entry through `got_email`, a fresh
  fingerprint) and re-run the flow with the updated state and proxy flag. -/
  | retry (d' : FlowData) (proxyEnabled' : Bool)
  /-- None of the branches fired (`retry_count == 0` with the proxy already
  enabled): control falls through to the no-puzzle path. -/
  | fallThrough
deriving DecidableEq

/-- The `if puzzle_detected:` block of `got_email`'s submission handler.
`proxyEnabled` is `PROXY_CONFIG['enabled']`, `proxyFound` is whether
`get_working_free_proxy()` returned a proxy. -/
def onPuzzleDetected (d : FlowData) (proxyEnabled proxyFound : Bool) : PuzzleAction :=
  if d.puzzle_retry_count ≥ 2 then
    .giveUp
  else if d.puzzle_retry_count == 0 && !proxyEnabled then
    if proxyFound then
      .retry { d with retry_with_proxy := true,
                      puzzle_retry_count := d.puzzle_retry_count + 1 } true
    else .proxyFetchFailed
  else if d.puzzle_retry_count == 1 then
    .retry { d with puzzle_retry_count := d.puzzle_retry_count + 1 } proxyEnabled
  else .fallThrough

/-- How a flow ends with respect to the puzzle branch. -/
inductive FlowResult where
  /-- No puzzle stopped the flow; it proceeds to the OTP step. -/
  | proceededToOtp
  /-- The terminal non-retryable puzzle message was sent. -/
  | terminalFailure
  /-- The terminal free-proxy-fetch-failure message was sent. -/
  | proxyFailure
deriving DecidableEq

/-- Run a flow whose first `detections` submission attempts all hit the puzzle
(and whose later attempts do not), starting from FSM data `d` and proxy flag
`e`; `pf` is whether a free proxy can be fetched.  Returns the outcome and the
number of rotate-and-retry escalations performed. -/
def runPuzzleFlow : Nat → FlowData → Bool → Bool → FlowResult × Nat
  | 0, _, _, _ => (.proceededToOtp, 0)
  | Nat.succ n, d, e, pf =>
    match onPuzzleDetected d e pf with
    | .giveUp => (.terminalFailure, 0)
    | .proxyFetchFailed => (.proxyFailure, 0)
    | .fallThrough => (.proceededToOtp, 0)
    | .retry d' e' => ((runPuzzleFlow n d' e' pf).1, (runPuzzleFlow n d' e' pf).2 + 1)

/-! ### Profile Generator (`generate_windows_profile`, `generate_macos_profile`,
`generate_linux_profile`, `generate_ultimate_stealth_profile`)

Each `random.*` draw becomes an explicit seed field; `random.choices` with
market-share weights has the same support as unweighted choice, and every
theorem quantifies over all draws, so weights are irrelevant here.  Floats
that the code only ever stores (scale factors, coordinates, downlink) are
modelled as `Rat`. -/

/-- A `{"width": w, "height": h}` dict. -/
structure Dim where
  width : Nat
  height : Nat
deriving DecidableEq

/-- The profile dict produced by the generators (the location/network keys are
added later by `generate_ultimate_stealth_profile` and default to placeholder
values until then). -/
structure DeviceProfile where
  type : String
  os : String
  browser : String
  user_agent : String
  webgl_vendor : String
  webgl_renderer : String
  viewport : Dim
  screen : Dim
  device_scale_factor : Rat
  hardware_concurrency : Nat
  device_memory : Nat
  max_touch_points : Nat
  platform : String
  timezone : String := ""
  locale : String := ""
  geolocation : Rat × Rat := (0, 0)
  city : String := ""
  connection_type : String := ""
  connection_rtt : Nat := 0
  connection_downlink : Rat := 0
  plugins : Nat := 0
deriving DecidableEq

/-- Seeds for the random draws of one OS-specific generator. -/
structure ProfileSeeds where
  osVer : Nat := 0
  browser : Nat := 0
  v1 : Nat := 0
  v2 : Nat := 0
  v3 : Nat := 0
  v4 : Nat := 0
  v5 : Nat := 0
  gpu : Nat := 0
  sv : Nat := 0
  scale : Nat := 0
  cores : Nat := 0
  mem : Nat := 0
deriving DecidableEq

/-- `generate_random_chrome_version()`. -/
def chromeVersionStr (s1 s2 s3 s4 : Nat) : String :=
  toString (randNat 119 122 s1) ++ "." ++ toString (randNat 0 99 s2) ++ "." ++
    toString (randNat 1000 9999 s3) ++ "." ++ toString (randNat 100 999 s4)

/-- The `gpu_options` table for Windows Chrome. -/
def winChromeGpuOptions : List (String × String) :=
  [("Google Inc. (NVIDIA)", "ANGLE (NVIDIA, NVIDIA GeForce RTX 3060 Direct3D11 vs_5_0 ps_5_0)"),
   ("Google Inc. (NVIDIA)", "ANGLE (NVIDIA, NVIDIA GeForce RTX 4060 Direct3D11 vs_5_0 ps_5_0)"),
   ("Google Inc. (NVIDIA)", "ANGLE (NVIDIA, NVIDIA GeForce GTX 1660 Direct3D11 vs_5_0 ps_5_0)"),
   ("Google Inc. (AMD)", "ANGLE (AMD, AMD Radeon RX 580 Direct3D11 vs_5_0 ps_5_0)"),
   ("Google Inc. (AMD)", "ANGLE (AMD, AMD Radeon RX 6600 Direct3D11 vs_5_0 ps_5_0)"),
   ("Google Inc. (Intel)", "ANGLE (Intel, Intel(R) UHD Graphics 630 Direct3D11 vs_5_0 ps_5_0)"),
   ("Google Inc. (Intel)", "ANGLE (Intel, Intel(R) Iris Xe Graphics Direct3D11 vs_5_0 ps_5_0)")]

/-- The Firefox-on-Windows `webgl_renderer` choices. -/
def winFirefoxRenderers : List String :=
  ["NVIDIA GeForce RTX 3060/PCIe/SSE2",
   "NVIDIA GeForce GTX 1660/PCIe/SSE2",
   "AMD Radeon RX 580 Series",
   "Intel(R) UHD Graphics 630"]

/-- The `gpu_options` table for Windows Edge. -/
def winEdgeGpuOptions : List (String × String) :=
  [("Google Inc. (Microsoft)", "ANGLE (NVIDIA, NVIDIA GeForce RTX 3060 Direct3D11 vs_5_0 ps_5_0, D3D11)"),
   ("Google Inc. (Microsoft)", "ANGLE (NVIDIA, NVIDIA GeForce GTX 1660 Direct3D11 vs_5_0 ps_5_0, D3D11)"),
   ("Google Inc. (Microsoft)", "ANGLE (AMD, AMD Radeon RX 580 Direct3D11 vs_5_0 ps_5_0, D3D11)"),
   ("Google Inc. (Microsoft)", "ANGLE (Intel, Intel(R) UHD Graphics 630 Direct3D11 vs_5_0 ps_5_0, D3D11)")]

/-- `screen_viewport_options` for Windows, as `(screen, viewport)` pairs. -/
def winScreenViewportOptions : List (Dim × Dim) :=
  [(⟨1920, 1080⟩, ⟨1920, 1080⟩), (⟨1920, 1080⟩, ⟨1536, 864⟩),
   (⟨1366, 768⟩, ⟨1366, 768⟩), (⟨1366, 768⟩, ⟨1280, 720⟩),
   (⟨1536, 864⟩, ⟨1536, 864⟩), (⟨1536, 864⟩, ⟨1366, 768⟩)]

/-- `generate_windows_profile()`. -/
def generate_windows_profile (c : ProfileSeeds) : DeviceProfile :=
  let win_version := pickD ["10.0", "11.0"] "10.0" c.osVer
  let browser := pickD ["chrome", "firefox", "edge"] "chrome" c.browser
  let uaGpu : String × String × String :=
    if browser == "chrome" then
      let chrome_version := chromeVersionStr c.v1 c.v2 c.v3 c.v4
      let gp := pickD winChromeGpuOptions ("", "") c.gpu
      ("Mozilla/5.0 (Windows NT " ++ win_version ++
         "; Win64; x64) AppleWebKit/537.36 (KHTML, like Gecko) Chrome/" ++
         chrome_version ++ " Safari/537.36", gp.1, gp.2)
    else if browser == "firefox" then
      let firefox_version := toString (randNat 115 120 c.v1) ++ ".0"
      ("Mozilla/5.0 (Windows NT " ++ win_version ++ "; Win64; x64; rv:" ++
         firefox_version ++ ") Gecko/20100101 Firefox/" ++ firefox_version,
       "Mozilla", pickD winFirefoxRenderers "" c.gpu)
    else
      let edge_version := toString (randNat 115 120 c.v1) ++ ".0." ++
        toString (randNat 1800 1900 c.v2) ++ "." ++ toString (randNat 60 99 c.v3)
      let gp := pickD winEdgeGpuOptions ("", "") c.gpu
      ("Mozilla/5.0 (Windows NT " ++ win_version ++
         "; Win64; x64) AppleWebKit/537.36 (KHTML, like Gecko) Chrome/" ++
         edge_version ++ " Safari/537.36 Edg/" ++ edge_version, gp.1, gp.2)
  let sv := pickD winScreenViewportOptions (⟨1920, 1080⟩, ⟨1920, 1080⟩) c.sv
  { type := "desktop", os := "Windows", browser := browser,
    user_agent := uaGpu.1, webgl_vendor := uaGpu.2.1, webgl_renderer := uaGpu.2.2,
    viewport := sv.2, screen := sv.1,
    device_scale_factor := pickD [(1 : Rat), 1.25, 1.5] 1 c.scale,
    hardware_concurrency := randNat 4 16 c.cores,
    device_memory := pickD [4, 8, 16, 32] 8 c.mem,
    max_touch_points := 0, platform := "Win32" }

/-- The Safari-on-macOS `webgl_renderer` choices. -/
def macSafariRenderers : List String :=
  ["Apple M1", "Apple M1 Pro", "Apple M2", "Apple GPU",
   "AMD Radeon Pro 5500M OpenGL Engine",
   "Intel(R) Iris(TM) Plus Graphics OpenGL Engine"]

/-- The Chrome-on-macOS `webgl_renderer` choices. -/
def macChromeRenderers : List String :=
  ["ANGLE (Apple, ANGLE Metal Renderer: Apple M1, Unspecified Version)",
   "ANGLE (Apple, ANGLE Metal Renderer: Apple M2, Unspecified Version)",
   "ANGLE (Apple, AMD Radeon Pro 5500M, OpenGL 4.1)",
   "ANGLE (Apple, Intel(R) Iris(TM) Plus Graphics, OpenGL 4.1)"]

/-- The Firefox-on-macOS `webgl_renderer` choices. -/
def macFirefoxRenderers : List String :=
  ["Apple M1", "Apple M2",
   "AMD Radeon Pro 5500M OpenGL Engine",
   "Intel(R) Iris(TM) Plus Graphics OpenGL Engine"]

/-- `screen_viewport_options` for macOS, as `(screen, viewport)` pairs. -/
def macScreenViewportOptions : List (Dim × Dim) :=
  [(⟨1440, 900⟩, ⟨1440, 900⟩), (⟨1440, 900⟩, ⟨1280, 800⟩),
   (⟨1680, 1050⟩, ⟨1680, 1050⟩), (⟨1680, 1050⟩, ⟨1440, 900⟩),
   (⟨1920, 1200⟩, ⟨1920, 1200⟩), (⟨1920, 1200⟩, ⟨1680, 1050⟩)]

/-- `generate_macos_profile()`. -/
def generate_macos_profile (c : ProfileSeeds) : DeviceProfile :=
  let mac_version := pickD ["10_15_7", "11_7_10", "12_6_8", "13_5_2", "14_0"] "10_15_7" c.osVer
  let browser := pickD ["safari", "chrome", "firefox"] "safari" c.browser
  let uaGpu : String × String × String :=
    if browser == "safari" then
      let safari_version := toString (randNat 16 17 c.v1) ++ "." ++ toString (randNat 0 5 c.v2)
      let webkit_version := toString (randNat 605 618 c.v3) ++ "." ++
        toString (randNat 1 3 c.v4) ++ "." ++ toString (randNat 10 20 c.v5)
      ("Mozilla/5.0 (Macintosh; Intel Mac OS X " ++ mac_version ++ ") AppleWebKit/" ++
         webkit_version ++ " (KHTML, like Gecko) Version/" ++ safari_version ++
         " Safari/" ++ webkit_version,
       "Apple Inc.", pickD macSafariRenderers "" c.gpu)
    else if browser == "chrome" then
      let chrome_version := chromeVersionStr c.v1 c.v2 c.v3 c.v4
      ("Mozilla/5.0 (Macintosh; Intel Mac OS X " ++ mac_version ++
         ") AppleWebKit/537.36 (KHTML, like Gecko) Chrome/" ++ chrome_version ++
         " Safari/537.36",
       "Google Inc. (Apple)", pickD macChromeRenderers "" c.gpu)
    else
      let firefox_version := toString (randNat 115 120 c.v1) ++ ".0"
      ("Mozilla/5.0 (Macintosh; Intel Mac OS X " ++ mac_version ++
         ") Gecko/20100101 Firefox/" ++ firefox_version,
       "Mozilla", pickD macFirefoxRenderers "" c.gpu)
  let sv := pickD macScreenViewportOptions (⟨1440, 900⟩, ⟨1440, 900⟩) c.sv
  { type := "desktop", os := "macOS", browser := browser,
    user_agent := uaGpu.1, webgl_vendor := uaGpu.2.1, webgl_renderer := uaGpu.2.2,
    viewport := sv.2, screen := sv.1,
    device_scale_factor := pickD [(1 : Rat), 2] 1 c.scale,
    hardware_concurrency := randNat 4 12 c.cores,
    device_memory := pickD [8, 16, 32] 8 c.mem,
    max_touch_points := 0, platform := "MacIntel" }

/-- The Firefox-on-Linux `webgl_renderer` choices (the RTX 3060 entry is
duplicated in the source to boost its probability). -/
def linuxFirefoxRenderers : List String :=
  ["NVIDIA GeForce RTX 3060/PCIe/SSE2",
   "NVIDIA GeForce RTX 3060/PCIe/SSE2",
   "NVIDIA GeForce RTX 3070/PCIe/SSE2",
   "NVIDIA GeForce GTX 1660/PCIe/SSE2",
   "AMD Radeon RX 580 Series (POLARIS10, DRM 3.42.0, 5.15.0-91-generic, LLVM 15.0.7)",
   "Intel(R) UHD Graphics 630 (CFL GT2)",
   "Mesa DRI Intel(R) UHD Graphics 630 (CFL GT2)"]

/-- The `gpu_options` table for Linux Chrome. -/
def linuxChromeGpuOptions : List (String × String) :=
  [("Google Inc. (NVIDIA)", "ANGLE (NVIDIA, NVIDIA GeForce RTX 3060/PCIe/SSE2, OpenGL 4.5.0)"),
   ("Google Inc. (NVIDIA)", "ANGLE (NVIDIA, NVIDIA GeForce GTX 1660/PCIe/SSE2, OpenGL 4.6.0)"),
   ("Google Inc. (AMD)", "ANGLE (AMD, AMD Radeon RX 580 Series (POLARIS10, DRM 3.42.0), OpenGL 4.6.0)"),
   ("Google Inc. (Intel)", "ANGLE (Intel, Mesa DRI Intel(R) UHD Graphics 630, OpenGL 4.6.0)"),
   ("Google Inc. (Intel)", "ANGLE (Intel, Mesa DRI Intel(R) Iris Xe Graphics, OpenGL 4.6.0)")]

/-- The `gpu_options` table for Linux Chromium (plain GL strings, no ANGLE). -/
def linuxChromiumGpuOptions : List (String × String) :=
  [("Google Inc. (NVIDIA)", "NVIDIA GeForce RTX 3060/PCIe/SSE2"),
   ("Google Inc. (NVIDIA)", "NVIDIA GeForce GTX 1660/PCIe/SSE2"),
   ("Google Inc. (AMD)", "AMD Radeon RX 580 Series (POLARIS10, DRM 3.42.0)"),
   ("Google Inc. (Intel)", "Mesa DRI Intel(R) UHD Graphics 630 (CFL GT2)"),
   ("Google Inc. (Intel)", "Mesa DRI Intel(R) Iris Xe Graphics")]

/-- `screen_viewport_options` for Linux, as `(screen, viewport)` pairs. -/
def linuxScreenViewportOptions : List (Dim × Dim) :=
  [(⟨1920, 1080⟩, ⟨1920, 1080⟩), (⟨1920, 1080⟩, ⟨1600, 900⟩),
   (⟨1920, 1080⟩, ⟨1366, 768⟩), (⟨1600, 900⟩, ⟨1600, 900⟩),
   (⟨1600, 900⟩, ⟨1366, 768⟩), (⟨1366, 768⟩, ⟨1366, 768⟩),
   (⟨1366, 768⟩, ⟨1280, 720⟩)]

/-- `generate_linux_profile()`. -/
def generate_linux_profile (c : ProfileSeeds) : DeviceProfile :=
  let browser := pickD ["firefox", "chrome", "chromium"] "firefox" c.browser
  let uaGpu : String × String × String :=
    if browser == "firefox" then
      let firefox_version := toString (randNat 115 120 c.v1) ++ ".0"
      ("Mozilla/5.0 (X11; Linux x86_64; rv:" ++ firefox_version ++
         ") Gecko/20100101 Firefox/" ++ firefox_version,
       "Mozilla", pickD linuxFirefoxRenderers "" c.gpu)
    else if browser == "chrome" then
      let chrome_version := chromeVersionStr c.v1 c.v2 c.v3 c.v4
      let gp := pickD linuxChromeGpuOptions ("", "") c.gpu
      ("Mozilla/5.0 (X11; Linux x86_64) AppleWebKit/537.36 (KHTML, like Gecko) Chrome/" ++
         chrome_version ++ " Safari/537.36", gp.1, gp.2)
    else
      let chromium_version := toString (randNat 115 120 c.v1) ++ ".0." ++
        toString (randNat 5700 5900 c.v2) ++ "." ++ toString (randNat 100 200 c.v3)
      let gp := pickD linuxChromiumGpuOptions ("", "") c.gpu
      ("Mozilla/5.0 (X11; Linux x86_64) AppleWebKit/537.36 (KHTML, like Gecko) Chrome/" ++
         chromium_version ++ " Safari/537.36", gp.1, gp.2)
  let sv := pickD linuxScreenViewportOptions (⟨1920, 1080⟩, ⟨1920, 1080⟩) c.sv
  { type := "desktop", os := "Linux", browser := browser,
    user_agent := uaGpu.1, webgl_vendor := uaGpu.2.1, webgl_renderer := uaGpu.2.2,
    viewport := sv.2, screen := sv.1,
    device_scale_factor := pickD [(1 : Rat), 1.25] 1 c.scale,
    hardware_concurrency := randNat 2 16 c.cores,
    device_memory := pickD [4, 8, 16] 8 c.mem,
    max_touch_points := 0, platform := "Linux x86_64" }

/-- One row of the `generate_random_location()` table. -/
structure GeoLocation where
  timezone : String
  locale : String
  latitude : Rat
  longitude : Rat
  city : String
deriving DecidableEq

/-- The `locations` table of `generate_random_location()`. -/
def locationsTable : List GeoLocation :=
  [⟨"America/New_York", "en-US", 40.7589, -73.9851, "New York"⟩,
   ⟨"America/Los_Angeles", "en-US", 34.0522, -118.2437, "Los Angeles"⟩,
   ⟨"America/Chicago", "en-US", 41.8781, -87.6298, "Chicago"⟩,
   ⟨"America/Phoenix", "en-US", 33.4484, -112.0740, "Phoenix"⟩,
   ⟨"America/Denver", "en-US", 39.7392, -104.9903, "Denver"⟩,
   ⟨"America/Toronto", "en-CA", 43.6532, -79.3832, "Toronto"⟩,
   ⟨"America/Vancouver", "en-CA", 49.2827, -123.1207, "Vancouver"⟩,
   ⟨"Europe/London", "en-GB", 51.5074, -0.1278, "London"⟩,
   ⟨"Europe/London", "en-GB", 53.4808, -2.2426, "Manchester"⟩,
   ⟨"Australia/Sydney", "en-AU", -33.8688, 151.2093, "Sydney"⟩,
   ⟨"Australia/Melbourne", "en-AU", -37.8136, 144.9631, "Melbourne"⟩]

/-- `generate_random_location()`. -/
def generate_random_location (i : Nat) : GeoLocation :=
  pickD locationsTable ⟨"America/New_York", "en-US", 40.7589, -73.9851, "New York"⟩ i

/-- Seeds for `generate_ultimate_stealth_profile`: `rv` is the
`random.random()` value driving the weighted generator selection, the three
seed records feed whichever OS generator is chosen, and the rest drive the
location/network draws. -/
structure UltimateSeeds where
  rv : Rat := 0
  win : ProfileSeeds := {}
  mac : ProfileSeeds := {}
  linux : ProfileSeeds := {}
  loc : Nat := 0
  connType : Nat := 0
  rtt : Nat := 0
  downlink : Nat := 0
  plugins : Nat := 0

/-- `generate_ultimate_stealth_profile()`: weighted choice over the three
desktop generators (Windows 0.45, macOS 0.30, Linux 0.25; the mobile
generators are commented out in the source; `rand_val <= cumulative_weight`
with the Windows fallback when even the last threshold fails), then
`profile.update(...)` with the location bundle and the network
characteristics.  `round(random.uniform(1.0, 50.0), 1)` becomes a seeded
one-decimal rational in the same interval. -/
def generate_ultimate_stealth_profile (u : UltimateSeeds) : DeviceProfile :=
  let base :=
    if u.rv ≤ 0.45 then generate_windows_profile u.win
    else if u.rv ≤ 0.75 then generate_macos_profile u.mac
    else if u.rv ≤ 1 then generate_linux_profile u.linux
    else generate_windows_profile u.win
  let location := generate_random_location u.loc
  { base with
    timezone := location.timezone, locale := location.locale,
    geolocation := (location.latitude, location.longitude), city := location.city,
    connection_type := pickD ["4g", "wifi", "ethernet"] "wifi" u.connType,
    connection_rtt := randNat 20 150 u.rtt,
    connection_downlink := ((10 + u.downlink % 491 : Nat) : Rat) / 10,
    plugins := randNat 2 5 u.plugins }

/-- The browser-family/GPU-string consistency asserted by the specification:
Firefox profiles report the `Mozilla` vendor and never a Chromium-style
`ANGLE (...)` renderer; Safari profiles report `Apple Inc.` and no ANGLE
string; Chromium-engine browsers report a `Google Inc.`-prefixed vendor. -/
def webglFamilyOk (p : DeviceProfile) : Prop :=
  (p.browser = "firefox" →
    p.webgl_vendor = "Mozilla" ∧ strStarts p.webgl_renderer "ANGLE" = false)
  ∧ (p.browser = "safari" →
      p.webgl_vendor = "Apple Inc." ∧ strStarts p.webgl_renderer "ANGLE" = false)
  ∧ (p.browser = "chrome" ∨ p.browser = "edge" ∨ p.browser = "chromium" →
      strStarts p.webgl_vendor "Google Inc." = true)

/-- The full per-profile invariant of the specification: consistent WebGL
strings and a viewport that fits inside the screen. -/
def profileConsistent (p : DeviceProfile) : Prop :=
  webglFamilyOk p
  ∧ p.viewport.width ≤ p.screen.width
  ∧ p.viewport.height ≤ p.screen.height

/-! ### Stealth Script Synthesizer (`generate_ultimate_stealth_script`)

The function first rebuilds the profile dict with exactly seventeen keys,
each `profile.get(key, default)`, then returns one Python f-string.  The
f-string performs no computation other than substituting those profile fields
(every `Math.random()` etc. in it is emitted JavaScript text, evaluated later
in the browser, not during synthesis), so the synthesizer is a pure function
of the profile argument. -/

/-- Python `str.upper()` (ASCII, as used on `profile['type']`). -/
def strUpper (s : String) : String := ⟨s.data.map Char.toUpper⟩

/-- Python `str.lower()` as a `String`-valued map (used on `profile['os']`). -/
def strLower (s : String) : String := ⟨s.data.map Char.toLower⟩

/-- The characters after the first occurrence of `pat` (empty when absent). -/
def afterFirst (text pat : List Char) : List Char :=
  match text with
  | [] => []
  | c :: t => if pat.isPrefixOf (c :: t) then (c :: t).drop pat.length else afterFirst t pat

/-- The characters before the next occurrence of `pat`. -/
def upToNext (text pat : List Char) : List Char :=
  match text with
  | [] => []
  | c :: t => if pat.isPrefixOf (c :: t) then [] else c :: upToNext t pat

/-- The f-string expression
`profile['user_agent'].split('Mozilla/')[1] if 'Mozilla/' in profile['user_agent'] else '5.0'`
(`split(p)[1]` is the text between the first and second occurrence of `p`). -/
def appVersionOf (ua : String) : String :=
  if hasSub ua.data "Mozilla/".data then
    ⟨upToNext (afterFirst ua.data "Mozilla/".data) "Mozilla/".data⟩
  else "5.0"

/-- The profile dictionary as passed by the caller: any key may be absent.
(The code reads the dict only through `.get` with a default, so a shallow
typed embedding models each key as an `Option`.) -/
structure StealthInput where
  os : Option String := none
  type : Option String := none
  platform : Option String := none
  user_agent : Option String := none
  hardware_concurrency : Option Nat := none
  device_memory : Option Nat := none
  max_touch_points : Option Nat := none
  screen : Option Dim := none
  connection_type : Option String := none
  connection_rtt : Option Nat := none
  connection_downlink : Option Rat := none
  webgl_vendor : Option String := none
  webgl_renderer : Option String := none
  locale : Option String := none
  city : Option String := none
  is_mobile : Option Bool := none
deriving DecidableEq

/-- The normalized profile dict rebuilt at the top of
`generate_ultimate_stealth_script` (exactly these seventeen keys). -/
structure StealthProfile where
  os : String
  type : String
  platform : String
  user_agent : String
  hardware_concurrency : Nat
  device_memory : Nat
  max_touch_points : Nat
  screen : Dim
  connection_type : String
  connection_rtt : Nat
  connection_downlink : Rat
  webgl_vendor : String
  webgl_renderer : String
  locale : String
  city : String
  is_mobile : Bool
deriving DecidableEq

/-- The `profile = { 'os': profile.get('os', 'Windows'), ... }` normalization:
every consumed key falls back to the desktop-Windows default of the source. -/
def normalizeProfile (p : StealthInput) : StealthProfile :=
  { os := p.os.getD "Windows",
    type := p.type.getD "desktop",
    platform := p.platform.getD "Win32",
    user_agent := p.user_agent.getD "Mozilla/5.0 (Windows NT 10.0; Win64; x64) AppleWebKit/537.36",
    hardware_concurrency := p.hardware_concurrency.getD 8,
    device_memory := p.device_memory.getD 16,
    max_touch_points := p.max_touch_points.getD 0,
    screen := p.screen.getD ⟨1920, 1080⟩,
    connection_type := p.connection_type.getD "wifi",
    connection_rtt := p.connection_rtt.getD 50,
    connection_downlink := p.connection_downlink.getD 25,
    webgl_vendor := p.webgl_vendor.getD "Google Inc.",
    webgl_renderer := p.webgl_renderer.getD "Generic GPU",
    locale := p.locale.getD "en-US",
    city := p.city.getD "Unknown",
    is_mobile := p.is_mobile.getD false }

/-- The body of the f-string returned by `generate_ultimate_stealth_script`:
the profile-field substitutions in their exact source order.  The constant
JavaScript between consecutive substitution points contains no further
substitution and is abbreviated here to a short fragment of the surrounding
source text (numbers are rendered with `toString`, which abstracts Python's
float formatting for the one float field, `connection_downlink`).  Inside the
template, `profile.get('browser', 'chrome')` and
`profile.get('timezone', 'America/New_York')` always yield their defaults,
because the normalization dict carries neither key. -/
def stealthScriptText (q : StealthProfile) : String :=
  String.join
    ["// ULTIMATE STEALTH MODE 2024-2025 - COMPLETE FINGERPRINT SPOOFING\n",
     "console.log: ULTIMATE STEALTH ACTIVE - ", q.os, " ", strUpper q.type,
     "\n// COMPLETE AUTOMATION REMOVAL ... delete navigator.webdriver ...\n",
     "// SPOOF PLATFORM: navigator.platform getter => ", q.platform,
     "\n// navigator.userAgent getter => ", q.user_agent,
     "\n// navigator.hardwareConcurrency getter => ", toString q.hardware_concurrency,
     "\n// navigator.deviceMemory getter => ", toString q.device_memory,
     "\n// navigator.maxTouchPoints getter => ", toString q.max_touch_points,
     "\n// screen.width getter => ", toString q.screen.width,
     "\n// screen.height getter => ", toString q.screen.height,
     "\n// screen.availWidth getter => ", toString q.screen.width,
     " - Math.floor(Math.random() * 40)",
     "\n// screen.availHeight getter => ", toString q.screen.height,
     " - Math.floor(Math.random() * 80 + 20)",
     "\n// navigator.connection: effectiveType ", q.connection_type,
     ", rtt ", toString q.connection_rtt,
     ", downlink ", toString q.connection_downlink,
     "\n// WebGL getParameter 37445 => ", q.webgl_vendor,
     "\n// WebGL getParameter 37446 => ", q.webgl_renderer,
     "\n// CANVAS FINGERPRINT RANDOMIZATION ... TIMING RANDOMIZATION ...",
     "\n// plugins: const osPlugins = pluginData of ", q.os,
     " or pluginData Windows",
     "\n// userAgentData: PlatformOs ", strLower q.os,
     "\n// navigator.language getter => ", q.locale,
     "\n// navigator.languages getter => ", q.locale, " and en",
     "\n// appVersion => ", appVersionOf q.user_agent,
     "\n// audio fingerprint profileSeed from userAgent length: ", q.user_agent,
     "\n// advanced WebGL spoof vendor => ", q.webgl_vendor,
     "\n// advanced WebGL spoof renderer => ", q.webgl_renderer,
     "\n// browser-specific paths for ", "chrome",
     "\n// browser checks again for ", "chrome",
     "\n// font noise profileSeed charCodeAt 0 of ", q.user_agent,
     "\n// canvas noise profileSeed charCodeAt 1 of ", q.user_agent,
     "\n// getTimezoneOffset from timezones table at ", "America/New_York",
     "\n// worker override hardwareConcurrency => ", toString q.hardware_concurrency,
     "\n// worker override deviceMemory => ", toString q.device_memory,
     "\n// worker timezone table at ", "America/New_York",
     "\n// worker WebGL vendor => ", q.webgl_vendor,
     "\n// worker WebGL renderer => ", q.webgl_renderer,
     "\n// Intl.DateTimeFormat options.timeZone = ", "America/New_York",
     "\n// console.log: ULTIMATE STEALTH COMPLETE - ", q.os, " ", q.type,
     " from ", q.city, "\n"]

/-- `generate_ultimate_stealth_script(profile)`: normalize, then substitute
into the fixed template.  Total: no failure path exists. -/
def generate_ultimate_stealth_script (p : StealthInput) : String :=
  stealthScriptText (normalizeProfile p)

/-! ## Theorems -/

/-! ### Helper lemmas -/

theorem pickD_mem (l : List α) (d : α) (i : Nat) (h : l ≠ []) : pickD l d i ∈ l := by
  unfold pickD
  have hl : 0 < l.length := List.length_pos.mpr h
  have hi : i % l.length < l.length := Nat.mod_lt _ hl
  rw [List.getD_eq_getElem l d hi]
  exact List.getElem_mem _

theorem runPuzzleFlow_succ (k : Nat) (d : FlowData) (e pf : Bool) :
    runPuzzleFlow (k + 1) d e pf =
      match onPuzzleDetected d e pf with
      | .giveUp => (.terminalFailure, 0)
      | .proxyFetchFailed => (.proxyFailure, 0)
      | .fallThrough => (.proceededToOtp, 0)
      | .retry d' e' => ((runPuzzleFlow k d' e' pf).1, (runPuzzleFlow k d' e' pf).2 + 1) :=
  rfl

theorem runPuzzleFlow_retry (k : Nat) (d : FlowData) (e pf : Bool) (d' : FlowData) (e' : Bool)
    (h : onPuzzleDetected d e pf = .retry d' e') :
    runPuzzleFlow (k + 1) d e pf
      = ((runPuzzleFlow k d' e' pf).1, (runPuzzleFlow k d' e' pf).2 + 1) := by
  rw [runPuzzleFlow_succ, h]

theorem runPuzzleFlow_giveUp (k : Nat) (d : FlowData) (e pf : Bool)
    (h : onPuzzleDetected d e pf = .giveUp) :
    runPuzzleFlow (k + 1) d e pf = (.terminalFailure, 0) := by
  rw [runPuzzleFlow_succ, h]

theorem runPuzzleFlow_proxyFail (k : Nat) (d : FlowData) (e pf : Bool)
    (h : onPuzzleDetected d e pf = .proxyFetchFailed) :
    runPuzzleFlow (k + 1) d e pf = (.proxyFailure, 0) := by
  rw [runPuzzleFlow_succ, h]

/-! ### C5 — Selector Resolver -/

/-- C5: `find_element_robust` probes candidates strictly in list order and
returns the first whose probe succeeds (so the probed selectors are exactly
the non-matching prefix followed by the first match, and later candidates are
never probed); per-candidate timeouts and errors are swallowed, and `none` is
returned when the list is exhausted — all captured by the two equations. -/
theorem find_element_robust_spec (probe : String → ProbeOutcome) (selectors : List String) :
    find_element_robust probe selectors
      = selectors.find? (fun s => probe s == ProbeOutcome.found)
    ∧ probedSelectors probe selectors
      = selectors.takeWhile (fun s => !(probe s == ProbeOutcome.found))
        ++ (selectors.find? (fun s => probe s == ProbeOutcome.found)).toList := by
  have hff : (ProbeOutcome.found == ProbeOutcome.found) = true := by decide
  have htf : (ProbeOutcome.timedOut == ProbeOutcome.found) = false := by decide
  have hef : (ProbeOutcome.errored == ProbeOutcome.found) = false := by decide
  induction selectors with
  | nil => exact ⟨rfl, rfl⟩
  | cons s rest ih =>
    constructor
    · cases h : probe s <;>
        simp [find_element_robust, List.find?, h, hff, htf, hef, ih.1]
    · cases h : probe s <;>
        simp [probedSelectors, List.find?, List.takeWhile, h, hff, htf, hef, ih.2]

/-! ### C9 — loading the learning store never fails -/

/-- C9: `load_learned_selectors` is total over every file state — a missing
file (`FileNotFoundError`) and a malformed file (`JSONDecodeError`) both
yield the default store, whose three categories are empty, and no error
escapes. -/
theorem load_learned_selectors_spec :
    (∀ f : StoreFile, load_learned_selectors f =
      match f with
      | .valid s => s
      | _ => defaultStore)
    ∧ load_learned_selectors .missing = defaultStore
    ∧ load_learned_selectors .malformed = defaultStore
    ∧ lookupCat defaultStore "signin_selectors" = some []
    ∧ lookupCat defaultStore "create_account_selectors" = some []
    ∧ lookupCat defaultStore "continue_selectors" = some [] := by
  refine ⟨fun f => ?_, rfl, rfl, by decide, by decide, by decide⟩
  cases f <;> rfl

/-! ### C7 — the stealth-script synthesizer is deterministic -/

/-- C7: `generate_ultimate_stealth_script` keeps no state between calls and
draws no randomness while producing the text (every `Math.random()` in the
template is emitted JavaScript, not synthesis-time computation), so two calls
on equal profile dictionaries produce byte-identical script text. -/
theorem stealth_script_deterministic (p q : StealthInput) (h : p = q) :
    generate_ultimate_stealth_script p = generate_ultimate_stealth_script q := by
  rw [h]

theorem stealth_script_deterministic_witness :
    ({ os := some "Linux", webgl_vendor := some "Mozilla" } : StealthInput)
      = { os := some "Linux", webgl_vendor := some "Mozilla" }
    ∧ generate_ultimate_stealth_script { os := some "Linux", webgl_vendor := some "Mozilla" }
      = generate_ultimate_stealth_script { os := some "Linux", webgl_vendor := some "Mozilla" } :=
  ⟨rfl, stealth_script_deterministic _ _ rfl⟩

/-! ### C8 — the synthesizer never fails and defaults to desktop Windows -/

/-- C8: the synthesizer is total — every consumed field is first normalized
with `.get(key, default)` so an unknown or missing field falls back to the
desktop-Windows default (`os` `"Windows"`, `platform` `"Win32"`, 8 cores,
1920×1080 screen, …), and script text is produced for every input, including
the empty profile. -/
theorem stealth_script_total_defaults (p : StealthInput) :
    generate_ultimate_stealth_script p = stealthScriptText (normalizeProfile p)
    ∧ normalizeProfile p =
        { os := p.os.getD "Windows",
          type := p.type.getD "desktop",
          platform := p.platform.getD "Win32",
          user_agent := p.user_agent.getD
            "Mozilla/5.0 (Windows NT 10.0; Win64; x64) AppleWebKit/537.36",
          hardware_concurrency := p.hardware_concurrency.getD 8,
          device_memory := p.device_memory.getD 16,
          max_touch_points := p.max_touch_points.getD 0,
          screen := p.screen.getD ⟨1920, 1080⟩,
          connection_type := p.connection_type.getD "wifi",
          connection_rtt := p.connection_rtt.getD 50,
          connection_downlink := p.connection_downlink.getD 25,
          webgl_vendor := p.webgl_vendor.getD "Google Inc.",
          webgl_renderer := p.webgl_renderer.getD "Generic GPU",
          locale := p.locale.getD "en-US",
          city := p.city.getD "Unknown",
          is_mobile := p.is_mobile.getD false }
    ∧ normalizeProfile {} =
        { os := "Windows", type := "desktop", platform := "Win32",
          user_agent := "Mozilla/5.0 (Windows NT 10.0; Win64; x64) AppleWebKit/537.36",
          hardware_concurrency := 8, device_memory := 16, max_touch_points := 0,
          screen := ⟨1920, 1080⟩, connection_type := "wifi", connection_rtt := 50,
          connection_downlink := 25, webgl_vendor := "Google Inc.",
          webgl_renderer := "Generic GPU", locale := "en-US", city := "Unknown",
          is_mobile := false }
    ∧ generate_ultimate_stealth_script {} ≠ "" := by
  refine ⟨rfl, rfl, rfl, ?_⟩
  set_option maxRecDepth 8000 in decide

/-! ### C1 — duplicate-email restart (corrected) -/

/-- C1 counterexample: after a duplicate-email detection the flow does return
to the email-collection stage, but when the user supplies a new email the
code takes the non-`retry_with_proxy` branch of `got_email` and generates a
fresh name and password (here `"Bob Jones"`/`"secret-two"`) instead of
reusing the previously generated `"Alice Smith"`/`"secret-one"`. -/
theorem duplicate_email_name_password_regenerated :
    (onDuplicateEmail (gotEmailStep {} "user@example.com" "Alice Smith" "secret-one")).2
      = RegStage.waiting_for_email
    ∧ (gotEmailStep
        (onDuplicateEmail (gotEmailStep {} "user@example.com" "Alice Smith" "secret-one")).1
        "user.2@example.com" "Bob Jones" "secret-two").full_name = some "Bob Jones"
    ∧ (gotEmailStep
        (onDuplicateEmail (gotEmailStep {} "user@example.com" "Alice Smith" "secret-one")).1
        "user.2@example.com" "Bob Jones" "secret-two").password = some "secret-two"
    ∧ some "Bob Jones" ≠ some "Alice Smith"
    ∧ some "secret-two" ≠ some "secret-one" := by
  decide

/-- C1 (amended): on duplicate-email detection the orchestrator transitions
back to the email-collection stage and stores the rejected email and the
previously generated name/password in state (`original_full_name`,
`original_password`), but on the next email submission it generates a fresh
name and password rather than reusing them (`retry_with_proxy`, which alone
triggers reuse, is left unset by the duplicate-email branch). -/
theorem duplicate_email_restart_spec (d : FlowData) (e fn pw : String)
    (h : d.retry_with_proxy = false) :
    (onDuplicateEmail d).2 = RegStage.waiting_for_email
    ∧ (onDuplicateEmail d).1.original_full_name = d.full_name
    ∧ (onDuplicateEmail d).1.original_password = d.password
    ∧ (onDuplicateEmail d).1.previous_email = d.email
    ∧ (onDuplicateEmail d).1.retry_with_proxy = false
    ∧ (gotEmailStep (onDuplicateEmail d).1 e fn pw).full_name = some fn
    ∧ (gotEmailStep (onDuplicateEmail d).1 e fn pw).password = some pw
    ∧ (gotEmailStep (onDuplicateEmail d).1 e fn pw).email = some e := by
  simp [onDuplicateEmail, gotEmailStep, h]

theorem duplicate_email_restart_spec_witness :
    ((⟨some "a@b.co", some "Alice Smith", some "pw1", none, none, none, none,
        false, 0⟩ : FlowData).retry_with_proxy = false)
    ∧ ((onDuplicateEmail ⟨some "a@b.co", some "Alice Smith", some "pw1", none, none, none,
          none, false, 0⟩).2 = RegStage.waiting_for_email
      ∧ (onDuplicateEmail ⟨some "a@b.co", some "Alice Smith", some "pw1", none, none, none,
          none, false, 0⟩).1.original_full_name
          = (⟨some "a@b.co", some "Alice Smith", some "pw1", none, none, none, none,
              false, 0⟩ : FlowData).full_name
      ∧ (onDuplicateEmail ⟨some "a@b.co", some "Alice Smith", some "pw1", none, none, none,
          none, false, 0⟩).1.original_password
          = (⟨some "a@b.co", some "Alice Smith", some "pw1", none, none, none, none,
              false, 0⟩ : FlowData).password
      ∧ (onDuplicateEmail ⟨some "a@b.co", some "Alice Smith", some "pw1", none, none, none,
          none, false, 0⟩).1.previous_email
          = (⟨some "a@b.co", some "Alice Smith", some "pw1", none, none, none, none,
              false, 0⟩ : FlowData).email
      ∧ (onDuplicateEmail ⟨some "a@b.co", some "Alice Smith", some "pw1", none, none, none,
          none, false, 0⟩).1.retry_with_proxy = false
      ∧ (gotEmailStep (onDuplicateEmail ⟨some "a@b.co", some "Alice Smith", some "pw1",
          none, none, none, none, false, 0⟩).1 "c@d.co" "Bob Jones" "pw2").full_name
          = some "Bob Jones"
      ∧ (gotEmailStep (onDuplicateEmail ⟨some "a@b.co", some "Alice Smith", some "pw1",
          none, none, none, none, false, 0⟩).1 "c@d.co" "Bob Jones" "pw2").password
          = some "pw2"
      ∧ (gotEmailStep (onDuplicateEmail ⟨some "a@b.co", some "Alice Smith", some "pw1",
          none, none, none, none, false, 0⟩).1 "c@d.co" "Bob Jones" "pw2").email
          = some "c@d.co") :=
  ⟨rfl, duplicate_email_restart_spec _ "c@d.co" "Bob Jones" "pw2" rfl⟩

/-! ### C2 — puzzle escalation budget (corrected) -/

/-- C2 counterexample: a fresh flow that encounters exactly two consecutive
puzzle detections does not terminate with the non-retryable failure message —
both detections trigger a rotation and the flow then proceeds; the terminal
message only appears on a third consecutive detection. -/
theorem puzzle_two_detections_flow_proceeds :
    runPuzzleFlow 2 {} false true = (FlowResult.proceededToOtp, 2)
    ∧ FlowResult.proceededToOtp ≠ FlowResult.terminalFailure := by
  decide

/-- C2 (amended): a fresh flow performs at most two proxy/fingerprint
rotations, whatever the number of consecutive puzzle detections and whether a
free proxy is found; after the two rotations the budget is exhausted, and a
third consecutive detection terminates the flow with the non-retryable
failure message, with no third rotation. -/
theorem puzzle_escalation_budget (n : Nat) (pf : Bool) :
    (runPuzzleFlow n {} false pf).2 ≤ 2
    ∧ (3 ≤ n → runPuzzleFlow n {} false true = (FlowResult.terminalFailure, 2)) := by
  have e1 : onPuzzleDetected {} false true
      = .retry ⟨none, none, none, none, none, none, none, true, 1⟩ true := by decide
  have e2 : onPuzzleDetected ⟨none, none, none, none, none, none, none, true, 1⟩ true true
      = .retry ⟨none, none, none, none, none, none, none, true, 2⟩ true := by decide
  have e3 : onPuzzleDetected ⟨none, none, none, none, none, none, none, true, 2⟩ true true
      = .giveUp := by decide
  have e0f : onPuzzleDetected {} false false = .proxyFetchFailed := by decide
  rcases n with _ | _ | _ | m
  · exact ⟨by cases pf <;> decide, fun h => absurd h (by decide)⟩
  · exact ⟨by cases pf <;> decide, fun h => absurd h (by decide)⟩
  · exact ⟨by cases pf <;> decide, fun h => absurd h (by decide)⟩
  · have hrun : runPuzzleFlow (m + 3) {} false true = (FlowResult.terminalFailure, 2) := by
      have s1 : runPuzzleFlow (m + 3) {} false true
          = ((runPuzzleFlow (m + 2) ⟨none, none, none, none, none, none, none, true, 1⟩
                true true).1,
             (runPuzzleFlow (m + 2) ⟨none, none, none, none, none, none, none, true, 1⟩
                true true).2 + 1) :=
        runPuzzleFlow_retry (m + 2) _ _ _ _ _ e1
      have s2 : runPuzzleFlow (m + 2) ⟨none, none, none, none, none, none, none, true, 1⟩
            true true
          = ((runPuzzleFlow (m + 1) ⟨none, none, none, none, none, none, none, true, 2⟩
                true true).1,
             (runPuzzleFlow (m + 1) ⟨none, none, none, none, none, none, none, true, 2⟩
                true true).2 + 1) :=
        runPuzzleFlow_retry (m + 1) _ _ _ _ _ e2
      have s3 : runPuzzleFlow (m + 1) ⟨none, none, none, none, none, none, none, true, 2⟩
            true true = (FlowResult.terminalFailure, 0) :=
        runPuzzleFlow_giveUp m _ _ _ e3
      rw [s1, s2, s3]
    constructor
    · cases pf
      · rw [runPuzzleFlow_proxyFail (m + 2) _ _ _ e0f]; decide
      · rw [hrun]
    · intro _
      exact hrun

theorem puzzle_escalation_budget_witness :
    (runPuzzleFlow 4 {} false true).2 ≤ 2
    ∧ (3 ≤ 4 ∧ runPuzzleFlow 4 {} false true = (FlowResult.terminalFailure, 2)) :=
  ⟨(puzzle_escalation_budget 4 true).1, by decide,
   (puzzle_escalation_budget 4 true).2 (by decide)⟩

/-! ### C10 — interaction categorization -/

/-- C10: for a non-`signin` context, an interaction whose text contains
"continue" (case-insensitively) is categorized as `create_account_selectors`
(never `continue_selectors`, because the create-account word list is checked
first and also contains "continue"), and `continue_selectors` is returned
exactly when the text contains "next" or "proceed" while containing none of
"continue", "verify", "create", "submit". -/
theorem categorize_interaction_spec (context text : String) (attrType : Option String)
    (h : context ≠ "signin") :
    (hasSub (lowerData text) "continue".data = true →
      categorize_interaction context text attrType = "create_account_selectors")
    ∧ (categorize_interaction context text attrType = "continue_selectors" ↔
        (hasSub (lowerData text) "next".data || hasSub (lowerData text) "proceed".data) = true
        ∧ hasSub (lowerData text) "continue".data = false
        ∧ hasSub (lowerData text) "verify".data = false
        ∧ hasSub (lowerData text) "create".data = false
        ∧ hasSub (lowerData text) "submit".data = false) := by
  have hb : (context == "signin") = false := beq_eq_false_iff_ne.mpr h
  have hne1 : ("create_account_selectors" : String) ≠ "continue_selectors" := by decide
  have hne2 : ("signin_selectors" : String) ≠ "continue_selectors" := by decide
  unfold categorize_interaction
  simp only [hb, Bool.false_eq_true, if_false, List.any_cons, List.any_nil, Bool.or_false]
  cases h1 : hasSub (lowerData text) "continue".data <;>
  cases h2 : hasSub (lowerData text) "verify".data <;>
  cases h3 : hasSub (lowerData text) "create".data <;>
  cases h4 : hasSub (lowerData text) "submit".data <;>
  cases h5 : hasSub (lowerData text) "next".data <;>
  cases h6 : hasSub (lowerData text) "proceed".data <;>
  cases h7 : (attrType == some "submit" || attrType == some "button") <;>
    simp_all [hne1, hne2]

theorem categorize_interaction_spec_witness :
    ("account_creation" : String) ≠ "signin"
    ∧ ((hasSub (lowerData "Continue") "continue".data = true →
        categorize_interaction "account_creation" "Continue" none = "create_account_selectors")
      ∧ (categorize_interaction "account_creation" "Continue" none = "continue_selectors" ↔
          (hasSub (lowerData "Continue") "next".data
            || hasSub (lowerData "Continue") "proceed".data) = true
          ∧ hasSub (lowerData "Continue") "continue".data = false
          ∧ hasSub (lowerData "Continue") "verify".data = false
          ∧ hasSub (lowerData "Continue") "create".data = false
          ∧ hasSub (lowerData "Continue") "submit".data = false)) :=
  ⟨by decide, categorize_interaction_spec "account_creation" "Continue" none (by decide)⟩

/-! ### Learner helper lemmas -/

theorem lookupCat_mapCat (s : Store) (c : String)
    (f : List LearnedEntry → List LearnedEntry) :
    lookupCat (mapCat s c f) c = (lookupCat s c).map f := by
  induction s with
  | nil => rfl
  | cons p t ih =>
    unfold mapCat
    cases hp : (p.1 == c) <;> simp [lookupCat, hp, ih]

theorem lookupCat_append_of_none (s : Store) (c : String) (l : List LearnedEntry)
    (h : lookupCat s c = none) : lookupCat (s ++ [(c, l)]) c = some l := by
  induction s with
  | nil => simp [lookupCat]
  | cons p t ih =>
    have hh : lookupCat (p :: t) c = if p.1 == c then some p.2 else lookupCat t c := rfl
    have hg : lookupCat ((p :: t) ++ [(c, l)]) c
        = if p.1 == c then some p.2 else lookupCat (t ++ [(c, l)]) c := rfl
    rw [hh] at h
    rw [hg]
    cases hp : (p.1 == c)
    · simp only [hp, Bool.false_eq_true, if_false] at h ⊢
      exact ih h
    · simp [hp] at h

theorem lookupCat_ensureCat (s : Store) (c : String) :
    lookupCat (ensureCat s c) c = some ((lookupCat s c).getD []) := by
  unfold ensureCat
  cases hx : lookupCat s c with
  | some L => simp [hx]
  | none => simp [hx, lookupCat_append_of_none s c [] hx]

theorem lookupCat_add_selector (s : Store) (c sel ctx : String) (now : Nat) :
    lookupCat (add_selector s c sel ctx now) c
      = some (addToCategoryList sel ctx now ((lookupCat s c).getD [])) := by
  unfold add_selector
  rw [lookupCat_mapCat, lookupCat_ensureCat]
  rfl

theorem bumpFirst_of_no_match (sel : String) (now : Nat) (l : List LearnedEntry)
    (h : ∀ e ∈ l, (e.selector == sel) = false) : bumpFirst sel now l = none := by
  induction l with
  | nil => rfl
  | cons e es ih =>
    have he := h e (List.mem_cons_self e es)
    simp [bumpFirst, he, ih fun x hx => h x (List.mem_cons_of_mem e hx)]

theorem bumpFirst_append_last (sel : String) (now : Nat) (l : List LearnedEntry)
    (e : LearnedEntry) (h : ∀ x ∈ l, (x.selector == sel) = false)
    (he : (e.selector == sel) = true) :
    bumpFirst sel now (l ++ [e])
      = some (l ++ [{ e with
                      success_count := e.success_count + 1,
                      last_success := some now }]) := by
  induction l with
  | nil => simp [bumpFirst, he]
  | cons x xs ih =>
    have hx := h x (List.mem_cons_self x xs)
    simp [bumpFirst, hx, ih fun y hy => h y (List.mem_cons_of_mem x hy)]

/-! ### C3 — recording the same (category, locator) twice -/

/-- C3: on a store with no entry yet for `(c, sel)`, the first `add_selector`
appends a single fresh entry (`success_count = 1`) and the second one
increments that same entry (`success_count = 2`, `last_success` set to the
second timestamp) instead of appending a duplicate — so exactly one entry for
the pair remains — and each mutation synchronously writes the store to
`learned_selectors.json` (modelled by `disk`). -/
theorem add_selector_twice_spec (w : LearnerWorld) (c sel c1 c2 : String) (t1 t2 : Nat)
    (h : entriesFor w.store c sel = []) :
    entriesFor (addSelectorWorld (addSelectorWorld w c sel c1 t1) c sel c2 t2).store c sel
      = [{ selector := sel, context := c1, learned_at := t1,
           success_count := 2, last_success := some t2 }]
    ∧ (addSelectorWorld w c sel c1 t1).disk = (addSelectorWorld w c sel c1 t1).store
    ∧ (addSelectorWorld (addSelectorWorld w c sel c1 t1) c sel c2 t2).disk
      = (addSelectorWorld (addSelectorWorld w c sel c1 t1) c sel c2 t2).store := by
  refine ⟨?_, rfl, rfl⟩
  unfold entriesFor at h
  have hL0 : ∀ e ∈ (lookupCat w.store c).getD [], (e.selector == sel) = false := by
    intro e he
    have h' := List.filter_eq_nil_iff.mp h e he
    simpa using h'
  have hadd1 : addToCategoryList sel c1 t1 ((lookupCat w.store c).getD [])
      = (lookupCat w.store c).getD [] ++ [⟨sel, c1, t1, 1, none⟩] := by
    unfold addToCategoryList
    rw [bumpFirst_of_no_match sel t1 _ hL0]
  have h1 : lookupCat (add_selector w.store c sel c1 t1) c
      = some ((lookupCat w.store c).getD [] ++ [⟨sel, c1, t1, 1, none⟩]) := by
    rw [lookupCat_add_selector, hadd1]
  have hbump2 : bumpFirst sel t2
        ((lookupCat w.store c).getD [] ++ [⟨sel, c1, t1, 1, none⟩])
      = some ((lookupCat w.store c).getD [] ++ [⟨sel, c1, t1, 2, some t2⟩]) := by
    have hb := bumpFirst_append_last sel t2 ((lookupCat w.store c).getD [])
      ⟨sel, c1, t1, 1, none⟩ hL0 (by simp)
    simpa using hb
  have h2 : lookupCat (add_selector (add_selector w.store c sel c1 t1) c sel c2 t2) c
      = some ((lookupCat w.store c).getD [] ++ [⟨sel, c1, t1, 2, some t2⟩]) := by
    rw [lookupCat_add_selector, h1]
    simp only [Option.getD_some]
    unfold addToCategoryList
    rw [hbump2]
  show entriesFor (add_selector (add_selector w.store c sel c1 t1) c sel c2 t2) c sel = _
  unfold entriesFor
  rw [h2]
  simp only [Option.getD_some, List.filter_append]
  rw [show List.filter (fun e => e.selector == sel) ((lookupCat w.store c).getD [])
        = [] from h]
  simp

theorem add_selector_twice_spec_witness :
    entriesFor defaultStore "signin_selectors" "#signInSubmit" = []
    ∧ (entriesFor (addSelectorWorld (addSelectorWorld ⟨defaultStore, defaultStore⟩
          "signin_selectors" "#signInSubmit" "recorded" 11)
          "signin_selectors" "#signInSubmit" "recorded2" 22).store
        "signin_selectors" "#signInSubmit"
        = [{ selector := "#signInSubmit", context := "recorded", learned_at := 11,
             success_count := 2, last_success := some 22 }]
      ∧ (addSelectorWorld ⟨defaultStore, defaultStore⟩
          "signin_selectors" "#signInSubmit" "recorded" 11).disk
        = (addSelectorWorld ⟨defaultStore, defaultStore⟩
          "signin_selectors" "#signInSubmit" "recorded" 11).store
      ∧ (addSelectorWorld (addSelectorWorld ⟨defaultStore, defaultStore⟩
          "signin_selectors" "#signInSubmit" "recorded" 11)
          "signin_selectors" "#signInSubmit" "recorded2" 22).disk
        = (addSelectorWorld (addSelectorWorld ⟨defaultStore, defaultStore⟩
          "signin_selectors" "#signInSubmit" "recorded" 11)
          "signin_selectors" "#signInSubmit" "recorded2" 22).store) :=
  ⟨by decide,
   add_selector_twice_spec ⟨defaultStore, defaultStore⟩ "signin_selectors"
     "#signInSubmit" "recorded" "recorded2" 11 22 (by decide)⟩

/-! ### C4 — merge order of learned and base selectors -/

/-- C4: when the learned list for the category and the base list are each
duplicate-free, the merged list of `get_combined_selectors` is duplicate-free,
starts with exactly the learned selectors in the store's order, keeps each
learned selector at its learned position (also when it occurs in both lists),
and places every non-learned base selector strictly after all learned ones. -/
theorem get_combined_selectors_spec (s : Store) (c : String) (base : List String)
    (h1 : (learnedOf s c).Nodup) (h2 : base.Nodup) :
    (get_combined_selectors s c base).Nodup
    ∧ (get_combined_selectors s c base).take (learnedOf s c).length = learnedOf s c
    ∧ (∀ x ∈ learnedOf s c,
        List.indexOf x (get_combined_selectors s c base) = List.indexOf x (learnedOf s c))
    ∧ (∀ y ∈ base, y ∉ learnedOf s c →
        (learnedOf s c).length ≤ List.indexOf y (get_combined_selectors s c base))
    ∧ (∀ x ∈ learnedOf s c, ∀ y ∈ base, y ∉ learnedOf s c →
        List.indexOf x (get_combined_selectors s c base)
          < List.indexOf y (get_combined_selectors s c base)) := by
  have hm : get_combined_selectors s c base
      = learnedOf s c ++ base.filter (fun x => !((learnedOf s c).contains x)) := rfl
  have hdisj : ∀ x ∈ learnedOf s c,
      x ∉ base.filter (fun x => !((learnedOf s c).contains x)) := by
    intro x hxL hxF
    have hc := List.of_mem_filter hxF
    simp at hc
    exact hc hxL
  refine ⟨?_, ?_, ?_, ?_, ?_⟩
  · rw [hm]
    exact List.nodup_append.mpr ⟨h1, h2.filter _, hdisj⟩
  · rw [hm]
    exact List.take_left _ _
  · intro x hx
    rw [hm]
    exact List.indexOf_append_of_mem hx
  · intro y hy hyL
    rw [hm, List.indexOf_append_of_not_mem hyL]
    exact Nat.le_add_right _ _
  · intro x hx y hy hyL
    rw [hm, List.indexOf_append_of_mem hx, List.indexOf_append_of_not_mem hyL]
    calc List.indexOf x (learnedOf s c) < (learnedOf s c).length :=
          List.indexOf_lt_length.mpr hx
      _ ≤ _ := Nat.le_add_right _ _

theorem get_combined_selectors_spec_witness :
    (learnedOf [("signin_selectors",
        [⟨"#learnedSignIn", "human", 3, 1, none⟩,
         ⟨"#a", "human", 4, 1, none⟩])] "signin_selectors").Nodup
    ∧ (["#a", "#base1", "#base2"] : List String).Nodup
    ∧ ((get_combined_selectors [("signin_selectors",
          [⟨"#learnedSignIn", "human", 3, 1, none⟩,
           ⟨"#a", "human", 4, 1, none⟩])] "signin_selectors"
          ["#a", "#base1", "#base2"]).Nodup
      ∧ (get_combined_selectors [("signin_selectors",
          [⟨"#learnedSignIn", "human", 3, 1, none⟩,
           ⟨"#a", "human", 4, 1, none⟩])] "signin_selectors"
          ["#a", "#base1", "#base2"]).take
          (learnedOf [("signin_selectors",
            [⟨"#learnedSignIn", "human", 3, 1, none⟩,
             ⟨"#a", "human", 4, 1, none⟩])] "signin_selectors").length
        = learnedOf [("signin_selectors",
            [⟨"#learnedSignIn", "human", 3, 1, none⟩,
             ⟨"#a", "human", 4, 1, none⟩])] "signin_selectors"
      ∧ (∀ x ∈ learnedOf [("signin_selectors",
            [⟨"#learnedSignIn", "human", 3, 1, none⟩,
             ⟨"#a", "human", 4, 1, none⟩])] "signin_selectors",
          List.indexOf x (get_combined_selectors [("signin_selectors",
            [⟨"#learnedSignIn", "human", 3, 1, none⟩,
             ⟨"#a", "human", 4, 1, none⟩])] "signin_selectors"
            ["#a", "#base1", "#base2"])
            = List.indexOf x (learnedOf [("signin_selectors",
                [⟨"#learnedSignIn", "human", 3, 1, none⟩,
                 ⟨"#a", "human", 4, 1, none⟩])] "signin_selectors"))
      ∧ (∀ y ∈ (["#a", "#base1", "#base2"] : List String),
          y ∉ learnedOf [("signin_selectors",
            [⟨"#learnedSignIn", "human", 3, 1, none⟩,
             ⟨"#a", "human", 4, 1, none⟩])] "signin_selectors" →
          (learnedOf [("signin_selectors",
            [⟨"#learnedSignIn", "human", 3, 1, none⟩,
             ⟨"#a", "human", 4, 1, none⟩])] "signin_selectors").length
            ≤ List.indexOf y (get_combined_selectors [("signin_selectors",
                [⟨"#learnedSignIn", "human", 3, 1, none⟩,
                 ⟨"#a", "human", 4, 1, none⟩])] "signin_selectors"
                ["#a", "#base1", "#base2"]))
      ∧ (∀ x ∈ learnedOf [("signin_selectors",
            [⟨"#learnedSignIn", "human", 3, 1, none⟩,
             ⟨"#a", "human", 4, 1, none⟩])] "signin_selectors",
          ∀ y ∈ (["#a", "#base1", "#base2"] : List String),
          y ∉ learnedOf [("signin_selectors",
            [⟨"#learnedSignIn", "human", 3, 1, none⟩,
             ⟨"#a", "human", 4, 1, none⟩])] "signin_selectors" →
          List.indexOf x (get_combined_selectors [("signin_selectors",
            [⟨"#learnedSignIn", "human", 3, 1, none⟩,
             ⟨"#a", "human", 4, 1, none⟩])] "signin_selectors"
            ["#a", "#base1", "#base2"])
            < List.indexOf y (get_combined_selectors [("signin_selectors",
                [⟨"#learnedSignIn", "human", 3, 1, none⟩,
                 ⟨"#a", "human", 4, 1, none⟩])] "signin_selectors"
                ["#a", "#base1", "#base2"]))) :=
  ⟨by decide, by decide,
   get_combined_selectors_spec
     [("signin_selectors",
       [⟨"#learnedSignIn", "human", 3, 1, none⟩, ⟨"#a", "human", 4, 1, none⟩])]
     "signin_selectors" ["#a", "#base1", "#base2"] (by decide) (by decide)⟩

/-! ### Profile-generator helper lemmas -/

theorem windows_profile_consistent (c : ProfileSeeds) :
    profileConsistent (generate_windows_profile c) := by
  have hchrome : ∀ gp ∈ winChromeGpuOptions, strStarts gp.1 "Google Inc." = true := by decide
  have hedge : ∀ gp ∈ winEdgeGpuOptions, strStarts gp.1 "Google Inc." = true := by decide
  have hffr : ∀ r ∈ winFirefoxRenderers, strStarts r "ANGLE" = false := by decide
  have hfit : ∀ pr ∈ winScreenViewportOptions,
      pr.2.width ≤ pr.1.width ∧ pr.2.height ≤ pr.1.height := by decide
  have hsv := hfit _ (pickD_mem winScreenViewportOptions (⟨1920, 1080⟩, ⟨1920, 1080⟩)
    c.sv (by decide))
  have hvp : (generate_windows_profile c).viewport
      = (pickD winScreenViewportOptions (⟨1920, 1080⟩, ⟨1920, 1080⟩) c.sv).2 := rfl
  have hsc : (generate_windows_profile c).screen
      = (pickD winScreenViewportOptions (⟨1920, 1080⟩, ⟨1920, 1080⟩) c.sv).1 := rfl
  have hbr : (generate_windows_profile c).browser
      = pickD ["chrome", "firefox", "edge"] "chrome" c.browser := rfl
  have hbmem := pickD_mem ["chrome", "firefox", "edge"] "chrome" c.browser (by simp)
  simp only [List.mem_cons, List.not_mem_nil, or_false] at hbmem
  rcases hbmem with hb | hb | hb
  · -- chrome
    refine ⟨⟨?_, ?_, ?_⟩, ?_, ?_⟩
    · intro hf
      rw [hbr, hb] at hf
      exact absurd hf (by decide)
    · intro hf
      rw [hbr, hb] at hf
      exact absurd hf (by decide)
    · intro _
      have hv : (generate_windows_profile c).webgl_vendor
          = (pickD winChromeGpuOptions ("", "") c.gpu).1 := by
        simp [generate_windows_profile, hb]
      rw [hv]
      exact hchrome _ (pickD_mem winChromeGpuOptions ("", "") c.gpu (by decide))
    · rw [hvp, hsc]
      exact hsv.1
    · rw [hvp, hsc]
      exact hsv.2
  · -- firefox
    refine ⟨⟨?_, ?_, ?_⟩, ?_, ?_⟩
    · intro _
      constructor
      · show (generate_windows_profile c).webgl_vendor = "Mozilla"
        simp [generate_windows_profile, hb]
      · have hr : (generate_windows_profile c).webgl_renderer
            = pickD winFirefoxRenderers "" c.gpu := by
          simp [generate_windows_profile, hb]
        rw [hr]
        exact hffr _ (pickD_mem winFirefoxRenderers "" c.gpu (by decide))
    · intro hf
      rw [hbr, hb] at hf
      exact absurd hf (by decide)
    · intro hf
      rw [hbr, hb] at hf
      rcases hf with hf | hf | hf <;> exact absurd hf (by decide)
    · rw [hvp, hsc]
      exact hsv.1
    · rw [hvp, hsc]
      exact hsv.2
  · -- edge
    refine ⟨⟨?_, ?_, ?_⟩, ?_, ?_⟩
    · intro hf
      rw [hbr, hb] at hf
      exact absurd hf (by decide)
    · intro hf
      rw [hbr, hb] at hf
      exact absurd hf (by decide)
    · intro _
      have hv : (generate_windows_profile c).webgl_vendor
          = (pickD winEdgeGpuOptions ("", "") c.gpu).1 := by
        simp [generate_windows_profile, hb]
      rw [hv]
      exact hedge _ (pickD_mem winEdgeGpuOptions ("", "") c.gpu (by decide))
    · rw [hvp, hsc]
      exact hsv.1
    · rw [hvp, hsc]
      exact hsv.2

theorem macos_profile_consistent (c : ProfileSeeds) :
    profileConsistent (generate_macos_profile c) := by
  have hsafari : ∀ r ∈ macSafariRenderers, strStarts r "ANGLE" = false := by decide
  have hffr : ∀ r ∈ macFirefoxRenderers, strStarts r "ANGLE" = false := by decide
  have hfit : ∀ pr ∈ macScreenViewportOptions,
      pr.2.width ≤ pr.1.width ∧ pr.2.height ≤ pr.1.height := by decide
  have hsv := hfit _ (pickD_mem macScreenViewportOptions (⟨1440, 900⟩, ⟨1440, 900⟩)
    c.sv (by decide))
  have hvp : (generate_macos_profile c).viewport
      = (pickD macScreenViewportOptions (⟨1440, 900⟩, ⟨1440, 900⟩) c.sv).2 := rfl
  have hsc : (generate_macos_profile c).screen
      = (pickD macScreenViewportOptions (⟨1440, 900⟩, ⟨1440, 900⟩) c.sv).1 := rfl
  have hbr : (generate_macos_profile c).browser
      = pickD ["safari", "chrome", "firefox"] "safari" c.browser := rfl
  have hbmem := pickD_mem ["safari", "chrome", "firefox"] "safari" c.browser (by simp)
  simp only [List.mem_cons, List.not_mem_nil, or_false] at hbmem
  rcases hbmem with hb | hb | hb
  · -- safari
    refine ⟨⟨?_, ?_, ?_⟩, ?_, ?_⟩
    · intro hf
      rw [hbr, hb] at hf
      exact absurd hf (by decide)
    · intro _
      constructor
      · show (generate_macos_profile c).webgl_vendor = "Apple Inc."
        simp [generate_macos_profile, hb]
      · have hr : (generate_macos_profile c).webgl_renderer
            = pickD macSafariRenderers "" c.gpu := by
          simp [generate_macos_profile, hb]
        rw [hr]
        exact hsafari _ (pickD_mem macSafariRenderers "" c.gpu (by decide))
    · intro hf
      rw [hbr, hb] at hf
      rcases hf with hf | hf | hf <;> exact absurd hf (by decide)
    · rw [hvp, hsc]
      exact hsv.1
    · rw [hvp, hsc]
      exact hsv.2
  · -- chrome
    refine ⟨⟨?_, ?_, ?_⟩, ?_, ?_⟩
    · intro hf
      rw [hbr, hb] at hf
      exact absurd hf (by decide)
    · intro hf
      rw [hbr, hb] at hf
      exact absurd hf (by decide)
    · intro _
      have hv : (generate_macos_profile c).webgl_vendor = "Google Inc. (Apple)" := by
        simp [generate_macos_profile, hb]
      rw [hv]
      decide
    · rw [hvp, hsc]
      exact hsv.1
    · rw [hvp, hsc]
      exact hsv.2
  · -- firefox
    refine ⟨⟨?_, ?_, ?_⟩, ?_, ?_⟩
    · intro _
      constructor
      · show (generate_macos_profile c).webgl_vendor = "Mozilla"
        simp [generate_macos_profile, hb]
      · have hr : (generate_macos_profile c).webgl_renderer
            = pickD macFirefoxRenderers "" c.gpu := by
          simp [generate_macos_profile, hb]
        rw [hr]
        exact hffr _ (pickD_mem macFirefoxRenderers "" c.gpu (by decide))
    · intro hf
      rw [hbr, hb] at hf
      exact absurd hf (by decide)
    · intro hf
      rw [hbr, hb] at hf
      rcases hf with hf | hf | hf <;> exact absurd hf (by decide)
    · rw [hvp, hsc]
      exact hsv.1
    · rw [hvp, hsc]
      exact hsv.2

theorem linux_profile_consistent (c : ProfileSeeds) :
    profileConsistent (generate_linux_profile c) := by
  have hffr : ∀ r ∈ linuxFirefoxRenderers, strStarts r "ANGLE" = false := by decide
  have hchrome : ∀ gp ∈ linuxChromeGpuOptions, strStarts gp.1 "Google Inc." = true := by
    decide
  have hchromium : ∀ gp ∈ linuxChromiumGpuOptions, strStarts gp.1 "Google Inc." = true := by
    decide
  have hfit : ∀ pr ∈ linuxScreenViewportOptions,
      pr.2.width ≤ pr.1.width ∧ pr.2.height ≤ pr.1.height := by decide
  have hsv := hfit _ (pickD_mem linuxScreenViewportOptions (⟨1920, 1080⟩, ⟨1920, 1080⟩)
    c.sv (by decide))
  have hvp : (generate_linux_profile c).viewport
      = (pickD linuxScreenViewportOptions (⟨1920, 1080⟩, ⟨1920, 1080⟩) c.sv).2 := rfl
  have hsc : (generate_linux_profile c).screen
      = (pickD linuxScreenViewportOptions (⟨1920, 1080⟩, ⟨1920, 1080⟩) c.sv).1 := rfl
  have hbr : (generate_linux_profile c).browser
      = pickD ["firefox", "chrome", "chromium"] "firefox" c.browser := rfl
  have hbmem := pickD_mem ["firefox", "chrome", "chromium"] "firefox" c.browser (by simp)
  simp only [List.mem_cons, List.not_mem_nil, or_false] at hbmem
  rcases hbmem with hb | hb | hb
  · -- firefox
    refine ⟨⟨?_, ?_, ?_⟩, ?_, ?_⟩
    · intro _
      constructor
      · show (generate_linux_profile c).webgl_vendor = "Mozilla"
        simp [generate_linux_profile, hb]
      · have hr : (generate_linux_profile c).webgl_renderer
            = pickD linuxFirefoxRenderers "" c.gpu := by
          simp [generate_linux_profile, hb]
        rw [hr]
        exact hffr _ (pickD_mem linuxFirefoxRenderers "" c.gpu (by decide))
    · intro hf
      rw [hbr, hb] at hf
      exact absurd hf (by decide)
    · intro hf
      rw [hbr, hb] at hf
      rcases hf with hf | hf | hf <;> exact absurd hf (by decide)
    · rw [hvp, hsc]
      exact hsv.1
    · rw [hvp, hsc]
      exact hsv.2
  · -- chrome
    refine ⟨⟨?_, ?_, ?_⟩, ?_, ?_⟩
    · intro hf
      rw [hbr, hb] at hf
      exact absurd hf (by decide)
    · intro hf
      rw [hbr, hb] at hf
      exact absurd hf (by decide)
    · intro _
      have hv : (generate_linux_profile c).webgl_vendor
          = (pickD linuxChromeGpuOptions ("", "") c.gpu).1 := by
        simp [generate_linux_profile, hb]
      rw [hv]
      exact hchrome _ (pickD_mem linuxChromeGpuOptions ("", "") c.gpu (by decide))
    · rw [hvp, hsc]
      exact hsv.1
    · rw [hvp, hsc]
      exact hsv.2
  · -- chromium
    refine ⟨⟨?_, ?_, ?_⟩, ?_, ?_⟩
    · intro hf
      rw [hbr, hb] at hf
      exact absurd hf (by decide)
    · intro hf
      rw [hbr, hb] at hf
      exact absurd hf (by decide)
    · intro _
      have hv : (generate_linux_profile c).webgl_vendor
          = (pickD linuxChromiumGpuOptions ("", "") c.gpu).1 := by
        simp [generate_linux_profile, hb]
      rw [hv]
      exact hchromium _ (pickD_mem linuxChromiumGpuOptions ("", "") c.gpu (by decide))
    · rw [hvp, hsc]
      exact hsv.1
    · rw [hvp, hsc]
      exact hsv.2

/-! ### C6 — every generated profile is internally consistent -/

/-- C6: every profile produced by `generate_ultimate_stealth_profile` —
whatever the weighted-selection draw and the per-generator random draws —
carries WebGL vendor/renderer strings of the family implied by its browser
(in particular a Firefox profile reports the `Mozilla` vendor and never an
ANGLE-style renderer), and its viewport never exceeds its screen in either
dimension. -/
theorem generate_ultimate_stealth_profile_consistent (u : UltimateSeeds) :
    profileConsistent (generate_ultimate_stealth_profile u) := by
  have hbase :
      profileConsistent
        (if u.rv ≤ 0.45 then generate_windows_profile u.win
         else if u.rv ≤ 0.75 then generate_macos_profile u.mac
         else if u.rv ≤ 1 then generate_linux_profile u.linux
         else generate_windows_profile u.win) := by
    split
    · exact windows_profile_consistent u.win
    · split
      · exact macos_profile_consistent u.mac
      · split
        · exact linux_profile_consistent u.linux
        · exact windows_profile_consistent u.win
  have hfields :
      (generate_ultimate_stealth_profile u).browser
        = (if u.rv ≤ 0.45 then generate_windows_profile u.win
           else if u.rv ≤ 0.75 then generate_macos_profile u.mac
           else if u.rv ≤ 1 then generate_linux_profile u.linux
           else generate_windows_profile u.win).browser
      ∧ (generate_ultimate_stealth_profile u).webgl_vendor
        = (if u.rv ≤ 0.45 then generate_windows_profile u.win
           else if u.rv ≤ 0.75 then generate_macos_profile u.mac
           else if u.rv ≤ 1 then generate_linux_profile u.linux
           else generate_windows_profile u.win).webgl_vendor
      ∧ (generate_ultimate_stealth_profile u).webgl_renderer
        = (if u.rv ≤ 0.45 then generate_windows_profile u.win
           else if u.rv ≤ 0.75 then generate_macos_profile u.mac
           else if u.rv ≤ 1 then generate_linux_profile u.linux
           else generate_windows_profile u.win).webgl_renderer
      ∧ (generate_ultimate_stealth_profile u).viewport
        = (if u.rv ≤ 0.45 then generate_windows_profile u.win
           else if u.rv ≤ 0.75 then generate_macos_profile u.mac
           else if u.rv ≤ 1 then generate_linux_profile u.linux
           else generate_windows_profile u.win).viewport
      ∧ (generate_ultimate_stealth_profile u).screen
        = (if u.rv ≤ 0.45 then generate_windows_profile u.win
           else if u.rv ≤ 0.75 then generate_macos_profile u.mac
           else if u.rv ≤ 1 then generate_linux_profile u.linux
           else generate_windows_profile u.win).screen :=
    ⟨rfl, rfl, rfl, rfl, rfl⟩
  obtain ⟨hb, hv, hr, hvp, hsc⟩ := hfields
  obtain ⟨⟨w1, w2, w3⟩, f1, f2⟩ := hbase
  refine ⟨⟨?_, ?_, ?_⟩, ?_, ?_⟩
  · intro hf
    rw [hb] at hf
    have := w1 hf
    rw [hv, hr]
    exact this
  · intro hf
    rw [hb] at hf
    have := w2 hf
    rw [hv, hr]
    exact this
  · intro hf
    rw [hb] at hf
    have := w3 hf
    rw [hv]
    exact this
  · rw [hvp, hsc]
    exact f1
  · rw [hvp, hsc]
    exact f2

end AmazonBot
